import Mathlib

/-!
Shallow embedding of `src/train.py` from the capsule_vision_challenge_2024
repository: the configuration-merge logic of `main`, and the pure decision
logic of `TrainHandler` (model-class selection, checkpoint policy naming,
batch-size determination, checkpoint-path construction, and the train/test
dispatch).  External collaborators (the Lightning trainer, wandb, the data
module) are modelled by the data they receive or return.
-/

/-- A Python value as it occurs in the argparse namespace / YAML configs:
`VNone` is Python `None`. -/
inductive Value where
  | VNone : Value
  | VInt : Int → Value
  | VStr : String → Value
  | VBool : Bool → Value
deriving DecidableEq, Repr

/-- A loaded YAML mapping: `none` means the key is absent from the file,
`some v` that the key is present with value `v` (possibly `Value.VNone`,
i.e. YAML null). -/
def YamlMap : Type := String → Option Value

/-- Embedding of the configuration merge in `main` (src/train.py lines
212-234).  `cli` is the argparse namespace after parsing (every declared
option has a value, defaults included); `config` is the YAML mapping loaded
from `--config` when that flag was given; `localConf` is the mapping loaded
from the hard-coded local override path when that file exists.
Pass 1: every key/value pair of the user config file is setattr-ed onto the
namespace.  Pass 2: every key/value pair of the local override file is
setattr-ed onto the namespace.  Pass 3: every attribute whose value is None
and whose key occurs in the user config file is set to the config-file
value. -/
def resolveArgs (cli : String → Value) (config : Option YamlMap)
    (localConf : Option YamlMap) : String → Value :=
  let a1 : String → Value := fun k =>
    match config with
    | none => cli k
    | some c =>
      match c k with
      | some v => v
      | none => cli k
  let a2 : String → Value := fun k =>
    match localConf with
    | none => a1 k
    | some lc =>
      match lc k with
      | some v => v
      | none => a1 k
  fun k =>
    match a2 k with
    | Value.VNone =>
      (match config with
       | some c =>
         (match c k with
          | some v => v
          | none => Value.VNone)
       | none => Value.VNone)
    | v => v

/-- Concrete argparse namespace for the C1 failing input: the command line
supplied `train_bs = 64` (a non-null value). -/
def cliC1 : String → Value := fun k =>
  if k = "train_bs" then Value.VInt 64 else Value.VNone

/-- Concrete user config file for the C1 failing input: it assigns
`train_bs: 32`. -/
def cfgC1 : YamlMap := fun k =>
  if k = "train_bs" then some (Value.VInt 32) else none

/-- C1: evaluation of the merge at the claimed failing input.  With the
fixed local override file absent, a CLI value `train_bs = 64` and a user
config file assigning `train_bs: 32`, the resolved configuration holds 32:
the config file overwrites the CLI value in the first pass, and the later
pass that the code comments say ensures CLI precedence never restores it.
This contradicts the claim (and the code's own comment) that the CLI value
wins. -/
theorem train_config_merge_bug_eval :
    resolveArgs cliC1 (some cfgC1) none "train_bs" = Value.VInt 32 := by
  rfl

/-- Concrete argparse namespace for the C3 counterexample. -/
def cliC3 : String → Value := fun k =>
  if k = "train_bs" then Value.VInt 64 else Value.VNone

/-- Concrete user config file for the C3 counterexample: `train_bs: 32`. -/
def cfgC3 : YamlMap := fun k =>
  if k = "train_bs" then some (Value.VInt 32) else none

/-- Concrete local override file for the C3 counterexample: it sets
`train_bs` to YAML null. -/
def localC3 : YamlMap := fun k =>
  if k = "train_bs" then some Value.VNone else none

/-- C3 counterexample: an option set (to null) in the fixed local override
file does NOT keep the override file's value in the resolved configuration:
the final pass refills the null from the user config file layer, so the
resolved value is 32, not the override file's null. -/
theorem local_override_null_value_refilled :
    localC3 "train_bs" = some Value.VNone ∧
      resolveArgs cliC3 (some cfgC3) (some localC3) "train_bs" ≠ Value.VNone ∧
      resolveArgs cliC3 (some cfgC3) (some localC3) "train_bs" = Value.VInt 32 := by
  refine ⟨rfl, fun hcontra => ?_, rfl⟩
  exact Value.noConfusion ((rfl :
    resolveArgs cliC3 (some cfgC3) (some localC3) "train_bs" = Value.VInt 32).symm.trans hcontra)

/-- C3 (amended): for every option the fixed local override file sets to a
non-null value, that value overwrites both the user-config-file layer and
the CLI value in the resolved configuration. -/
theorem local_override_nonnull_wins
    (cli : String → Value) (config : Option YamlMap) (lc : YamlMap)
    (k : String) (v : Value) (hset : lc k = some v) (hv : v ≠ Value.VNone) :
    resolveArgs cli config (some lc) k = v := by
  unfold resolveArgs
  cases v with
  | VNone => exact absurd rfl hv
  | VInt n => simp only [hset]
  | VStr s => simp only [hset]
  | VBool b => simp only [hset]

/-- Witness for `local_override_nonnull_wins` at a concrete input: override
file sets `train_bs: 128`, CLI supplied 64, config file 32; resolved is
128. -/
theorem local_override_nonnull_wins_witness :
    resolveArgs cliC3 (some cfgC3)
      (some (fun k => if k = "train_bs" then some (Value.VInt 128) else none))
      "train_bs" = Value.VInt 128 :=
  local_override_nonnull_wins cliC3 (some cfgC3)
    (fun k => if k = "train_bs" then some (Value.VInt 128) else none)
    "train_bs" (Value.VInt 128) rfl (by decide)

/-- Outcome of `TrainHandler.train` (src/train.py lines 39-50), abstracting
the Lightning trainer: which `fit` call is made, if any.  `L` is the type
of dataloader handles. -/
inductive TrainOutcome (L : Type) where
  | noFit : TrainOutcome L
  | fitTrainOnly : L → TrainOutcome L
  | fitBoth : L → L → TrainOutcome L
deriving DecidableEq, Repr

/-- The ValueError message raised by `TrainHandler.train`. -/
def trainValErrMsg : String :=
  "Validation loader is None and \x27train_loader_only\x27 is not set to True. Please provide a validation loader."

/-- Embedding of `TrainHandler.train` (src/train.py lines 39-50): the body
runs only under `if train_loader is not None`; inside, `train_loader_only`
selects a train-only fit, else a present validation loader selects a fit
with both loaders, else the ValueError is raised.  When the train loader is
None the method falls through and does nothing. -/
def trainRun {L : Type} (trainLoader valLoader : Option L)
    (trainLoaderOnly : Bool) : Except String (TrainOutcome L) :=
  match trainLoader with
  | some t =>
    if trainLoaderOnly then
      Except.ok (TrainOutcome.fitTrainOnly t)
    else
      match valLoader with
      | some v => Except.ok (TrainOutcome.fitBoth t v)
      | none => Except.error trainValErrMsg
  | none => Except.ok TrainOutcome.noFit

/-- C2 counterexample: with no training loader, no validation loader and
`train_loader_only = False`, `train` does NOT raise the documented
ValueError - it silently performs no fit at all (the whole body is guarded
by `if train_loader is not None`). -/
theorem train_no_loaders_silent_noop :
    trainRun (L := String) none none false = Except.ok TrainOutcome.noFit ∧
      ∀ msg : String, trainRun (L := String) none none false ≠ Except.error msg := by
  exact ⟨rfl, fun msg h => Except.noConfusion h⟩

/-- C2 (amended): `train` raises the documented ValueError exactly when a
training loader exists, the validation loader is absent and
`train_loader_only` was not requested; it fits with both loaders when both
exist and `train_loader_only` is false; it fits with the train loader only
whenever `train_loader_only` is true and a train loader exists; and it does
nothing when the train loader is absent. -/
theorem train_fit_dispatch (t v : String) (vOpt : Option String) (b : Bool) :
    trainRun (some t) none false = Except.error trainValErrMsg ∧
      trainRun (some t) (some v) false = Except.ok (TrainOutcome.fitBoth t v) ∧
      trainRun (some t) vOpt true = Except.ok (TrainOutcome.fitTrainOnly t) ∧
      trainRun (L := String) none vOpt b = Except.ok TrainOutcome.noFit := by
  exact ⟨rfl, rfl, rfl, rfl⟩

/-- Outcome of `TrainHandler.test` (src/train.py lines 52-56): either the
informational skip, or a `trainer.test` call with a checkpoint path. -/
inductive TestOutcome (L : Type) where
  | skipped : String → TestOutcome L
  | tested : L → String → TestOutcome L
deriving DecidableEq, Repr

/-- Embedding of `TrainHandler.test`: when the data module has no test
dataloader, log an informational message and return; otherwise call
`trainer.test` on that loader with `ckpt_path = best`. -/
def testRun {L : Type} (testLoader : Option L) : TestOutcome L :=
  match testLoader with
  | none => TestOutcome.skipped "No test dataloader available. Skip testing."
  | some l => TestOutcome.tested l "best"

/-- C8: with an absent test dataloader, `test` returns the informational
skip (no error is possible: the result type has no error case and the skip
carries the logged note); with a present test dataloader it evaluates via
`trainer.test` with `ckpt_path = best`, the checkpoint ranked best by the
monitored metric. -/
theorem test_skip_or_best :
    testRun (L := String) none =
        TestOutcome.skipped "No test dataloader available. Skip testing." ∧
      ∀ l : String, testRun (some l) = TestOutcome.tested l "best" := by
  exact ⟨rfl, fun l => rfl⟩

/-- The three model constructors `__get_model_cls` can return. -/
inductive ModelCls where
  | RegNetY : ModelCls
  | EndoViT : ModelCls
  | TimmModel : ModelCls
deriving DecidableEq, Repr

/-- Embedding of Python `str.lower()` as used by `__get_model_cls` (the
strings compared are ASCII, where per-character lowercasing agrees with
Python). -/
def pyLower (s : String) : String := String.mk (s.data.map Char.toLower)

/-- Embedding of `TrainHandler.__get_model_cls` (src/train.py lines
191-200): `model_type == "seer"` gives RegNetY; else `model_type ==
"endovit"` or `model_arch.lower() == "endovit"` gives EndoViT; else
`model_type == "timm"` gives TimmModel; else a ValueError naming the
model type. -/
def get_model_cls (model_arch model_type : String) : Except String ModelCls :=
  if model_type = "seer" then
    Except.ok ModelCls.RegNetY
  else if model_type = "endovit" ∨ pyLower model_arch = "endovit" then
    Except.ok ModelCls.EndoViT
  else if model_type = "timm" then
    Except.ok ModelCls.TimmModel
  else
    Except.error ("Model type " ++ model_type ++ " is not supported.")

/-- C4: the selector evaluates in order: exact-match `model_type = "seer"`
returns RegNetY; otherwise `model_type = "endovit"` or a case-insensitive
`model_arch = "endovit"` returns EndoViT (in particular
`model_type = "timm"` with `model_arch = "ENDOVIT"` returns EndoViT, the
arch check preceding the timm check); otherwise exact-match
`model_type = "timm"` returns TimmModel.  Only the architecture check is
case-insensitive. -/
theorem get_model_cls_selection_order (model_arch model_type : String) :
    (model_type = "seer" → get_model_cls model_arch model_type = Except.ok ModelCls.RegNetY) ∧
      (model_type ≠ "seer" →
        (model_type = "endovit" ∨ pyLower model_arch = "endovit") →
        get_model_cls model_arch model_type = Except.ok ModelCls.EndoViT) ∧
      (model_type ≠ "seer" → model_type ≠ "endovit" →
        pyLower model_arch ≠ "endovit" → model_type = "timm" →
        get_model_cls model_arch model_type = Except.ok ModelCls.TimmModel) ∧
      get_model_cls "ENDOVIT" "timm" = Except.ok ModelCls.EndoViT := by
  refine ⟨?_, ?_, ?_, ?_⟩
  · intro h
    simp [get_model_cls, h]
  · intro h1 h2
    simp [get_model_cls, h1, h2]
  · intro h1 h2 h3 h4
    simp [get_model_cls, h1, h2, h3, h4]
  · rfl

/-- Witness for `get_model_cls_selection_order`: the seer branch at a
concrete input. -/
theorem get_model_cls_selection_order_witness :
    get_model_cls "regnety_640.seer" "seer" = Except.ok ModelCls.RegNetY :=
  (get_model_cls_selection_order "regnety_640.seer" "seer").1 rfl

/-- C9: every `model_type` outside the supported set whose `model_arch` is
not case-insensitively "endovit" is rejected with a ValueError whose
message names the unsupported model_type string. -/
theorem get_model_cls_unsupported_error (model_arch model_type : String)
    (h1 : model_type ≠ "seer") (h2 : model_type ≠ "endovit")
    (h3 : model_type ≠ "timm") (h4 : pyLower model_arch ≠ "endovit") :
    get_model_cls model_arch model_type =
        Except.error ("Model type " ++ model_type ++ " is not supported.") ∧
      ∃ pre post, ("Model type " ++ model_type ++ " is not supported.") =
        pre ++ model_type ++ post := by
  constructor
  · simp [get_model_cls, h1, h2, h3, h4]
  · exact ⟨"Model type ", " is not supported.", rfl⟩

/-- Witness for `get_model_cls_unsupported_error` at the concrete input
from the spec: `model_type = "unsupported"`. -/
theorem get_model_cls_unsupported_error_witness :
    get_model_cls "resnet50" "unsupported" =
        Except.error ("Model type " ++ "unsupported" ++ " is not supported.") ∧
      ∃ pre post, ("Model type " ++ "unsupported" ++ " is not supported.") =
        pre ++ "unsupported" ++ post :=
  get_model_cls_unsupported_error "resnet50" "unsupported"
    (by decide) (by decide) (by decide) (by decide)

/-- Python truthiness of an optional int attribute (`if args.train_bs:`):
None and 0 are falsy, every other int is truthy. -/
def pyTruthyInt : Option Int → Bool
  | none => false
  | some n => n != 0

/-- Python truthiness of an optional string attribute
(`if checkpoint_filename and checkpoint_dir:`): None and the empty string
are falsy. -/
def pyTruthyStr : Option String → Bool
  | none => false
  | some s => s != ""

/-- The accelerator state `torch.cuda` reports: availability, device count,
and per-device name and total memory in bytes.  Purely informational input
of `__get_batch_size`. -/
structure AccelState where
  cudaAvailable : Bool
  deviceCount : Nat
  deviceName : Nat → String
  totalMemoryBytes : Nat → Nat

/-- One informational log line emitted by `__get_batch_size`. -/
inductive BsLog where
  | gpuInfo : Nat → String → Nat → BsLog
  | noCuda : BsLog
deriving DecidableEq, Repr

/-- The GPU-detection logging of `__get_batch_size` (src/train.py lines
115-123): one line per CUDA device with its name and total memory, or a
single no-CUDA note.  (The source formats memory as GB with two decimals
for display; the log entry here carries the underlying byte count.) -/
def gpuDetectLogs (acc : AccelState) : List BsLog :=
  if acc.cudaAvailable then
    (List.range acc.deviceCount).map
      (fun i => BsLog.gpuInfo i (acc.deviceName i) (acc.totalMemoryBytes i))
  else
    [BsLog.noCuda]

/-- Result of `__get_batch_size`: the informational GPU log, the chosen
sizes, and the pairs written back into `wandb.config`. -/
structure BatchSizeResult where
  gpuLogs : List BsLog
  train_bs : Int
  val_bs : Int
  wandbUpdate : List (String × Int)
deriving DecidableEq, Repr

/-- Embedding of `TrainHandler.__get_batch_size` (src/train.py lines
113-138): log GPU detection, start from `train_bs = 64` and
`val_bs = train_bs`, then override each size with the corresponding
argument when that argument is truthy (`if args.train_bs:`), and record the
chosen sizes into wandb.config. -/
def get_batch_size (trainBsArg valBsArg : Option Int) (acc : AccelState) :
    BatchSizeResult :=
  let logs := gpuDetectLogs acc
  let train_bs : Int := 64
  let val_bs : Int := train_bs
  let train_bs : Int :=
    if pyTruthyInt trainBsArg then trainBsArg.getD train_bs else train_bs
  let val_bs : Int :=
    if pyTruthyInt valBsArg then valBsArg.getD val_bs else val_bs
  { gpuLogs := logs
    train_bs := train_bs
    val_bs := val_bs
    wandbUpdate := [("train_bs", train_bs), ("val_bs", val_bs)] }

/-- C6: the chosen batch sizes default to 64/64, are replaced by explicit
(non-zero, non-null) train_bs/val_bs options when supplied, and the
detected accelerator state is logged but never affects the chosen sizes:
two runs differing only in accelerator state choose identical sizes. -/
theorem batch_size_determination
    (trainBsArg valBsArg : Option Int) (n : Int) (acc acc2 : AccelState) :
    ((get_batch_size none none acc).train_bs = 64 ∧
        (get_batch_size none none acc).val_bs = 64) ∧
      (n ≠ 0 →
        (get_batch_size (some n) valBsArg acc).train_bs = n ∧
          (get_batch_size trainBsArg (some n) acc).val_bs = n) ∧
      (get_batch_size trainBsArg valBsArg acc).gpuLogs = gpuDetectLogs acc ∧
      ((get_batch_size trainBsArg valBsArg acc).train_bs =
          (get_batch_size trainBsArg valBsArg acc2).train_bs ∧
        (get_batch_size trainBsArg valBsArg acc).val_bs =
          (get_batch_size trainBsArg valBsArg acc2).val_bs) := by
  refine ⟨⟨rfl, rfl⟩, ?_, rfl, ⟨rfl, rfl⟩⟩
  intro hn
  constructor
  · simp [get_batch_size, pyTruthyInt, hn]
  · simp [get_batch_size, pyTruthyInt, hn]

/-- Witness for `batch_size_determination` at concrete inputs:
train_bs=32, val_bs=16 supplied, no CUDA. -/
theorem batch_size_determination_witness :
    (get_batch_size (some 32) (some 16)
          ⟨false, 0, fun _ => "", fun _ => 0⟩).train_bs = 32 ∧
      (get_batch_size (some 32) (some 16)
          ⟨false, 0, fun _ => "", fun _ => 0⟩).val_bs = 16 :=
  ⟨((batch_size_determination (some 32) (some 16) 32
      ⟨false, 0, fun _ => "", fun _ => 0⟩
      ⟨false, 0, fun _ => "", fun _ => 0⟩).2.1 (by decide)).1,
   ((batch_size_determination (some 32) (some 16) 16
      ⟨false, 0, fun _ => "", fun _ => 0⟩
      ⟨false, 0, fun _ => "", fun _ => 0⟩).2.1 (by decide)).2⟩

/-- C10: a train_bs or val_bs option supplied with a falsy value (0 or
null) is treated as unsupplied - the override test checks truthiness, not
presence - so that batch size resolves to the default 64.  Each option is
covered independently: a falsy train_bs resolves the train size to 64
whatever val_bs is, and a falsy val_bs resolves the val size to 64
whatever train_bs is. -/
theorem batch_size_falsy_treated_unsupplied
    (trainBsArg valBsArg : Option Int) (acc : AccelState) :
    ((trainBsArg = none ∨ trainBsArg = some 0) →
        (get_batch_size trainBsArg valBsArg acc).train_bs = 64) ∧
      ((valBsArg = none ∨ valBsArg = some 0) →
        (get_batch_size trainBsArg valBsArg acc).val_bs = 64) := by
  constructor
  · intro ht
    rcases ht with h | h <;> subst h <;> rfl
  · intro hv
    rcases hv with h | h <;> subst h <;> rfl

/-- Witness for `batch_size_falsy_treated_unsupplied` at mixed concrete
inputs: train_bs=0 supplied together with a truthy val_bs=16 still resolves
the train size to 64, and val_bs absent alongside a truthy train_bs=32
still resolves the val size to 64. -/
theorem batch_size_falsy_treated_unsupplied_witness :
    (get_batch_size (some 0) (some 16)
          ⟨true, 1, fun _ => "A100", fun _ => 85899345920⟩).train_bs = 64 ∧
      (get_batch_size (some 32) none
          ⟨true, 1, fun _ => "A100", fun _ => 85899345920⟩).val_bs = 64 :=
  ⟨(batch_size_falsy_treated_unsupplied (some 0) (some 16)
      ⟨true, 1, fun _ => "A100", fun _ => 85899345920⟩).1 (Or.inr rfl),
    (batch_size_falsy_treated_unsupplied (some 32) none
      ⟨true, 1, fun _ => "A100", fun _ => 85899345920⟩).2 (Or.inl rfl)⟩

/-- Does the string begin with a path separator?  (The `isabs` test inside
`os.path.join` on posix.) -/
def startsWithSlash (s : String) : Bool :=
  match s.data with
  | [] => false
  | c :: _ => c == '/'

/-- Does the string end with a path separator?  (The `endswith(sep)` test
inside `os.path.join` on posix.) -/
def endsWithSlash (s : String) : Bool :=
  match s.data.getLast? with
  | none => false
  | some c => c == '/'

/-- Embedding of posix `os.path.join(a, b)` for the two-argument calls in
src/train.py: an absolute second component replaces the first; otherwise
the separator is inserted unless the first component is empty or already
ends with one. -/
def osPathJoin (a b : String) : String :=
  if startsWithSlash b then b
  else if a = "" then b
  else if endsWithSlash a then a ++ b
  else a ++ "/" ++ b

/-- Embedding of `TrainHandler.__get_checkpoint_path` (src/train.py lines
202-209): the pretrained checkpoint path is the join of the configured
directory and filename when both are truthy, else None. -/
def get_checkpoint_path (checkpoint_filename pretrained_checkpoint_dir : Option String) :
    Option String :=
  if pyTruthyStr checkpoint_filename && pyTruthyStr pretrained_checkpoint_dir then
    some (osPathJoin (pretrained_checkpoint_dir.getD "")
      (checkpoint_filename.getD ""))
  else
    none

/-- C7: the pretrained-checkpoint path handed to the model constructor is
non-null iff both a checkpoint filename and a pretrained-checkpoint
directory are configured (present and non-empty); in that case it is the
path join of the directory and the filename, and when either is missing it
is None. -/
theorem checkpoint_path_iff_configured
    (fn dir : Option String) (f d : String) :
    ((get_checkpoint_path fn dir).isSome = true ↔
        (pyTruthyStr fn = true ∧ pyTruthyStr dir = true)) ∧
      (fn = some f → dir = some d → f ≠ "" → d ≠ "" →
        get_checkpoint_path fn dir = some (osPathJoin d f)) ∧
      (pyTruthyStr fn = false ∨ pyTruthyStr dir = false →
        get_checkpoint_path fn dir = none) := by
  refine ⟨?_, ?_, ?_⟩
  · unfold get_checkpoint_path
    rcases h1 : pyTruthyStr fn <;> rcases h2 : pyTruthyStr dir <;> simp
  · intro hf hd hfne hdne
    subst hf; subst hd
    unfold get_checkpoint_path
    simp [pyTruthyStr, hfne, hdne]
  · intro h
    unfold get_checkpoint_path
    rcases h with h | h <;> simp [h]

/-- Witness for `checkpoint_path_iff_configured` at concrete inputs. -/
theorem checkpoint_path_iff_configured_witness :
    get_checkpoint_path (some "best.ckpt") (some "pretrained") =
      some (osPathJoin "pretrained" "best.ckpt") :=
  (checkpoint_path_iff_configured (some "best.ckpt") (some "pretrained")
      "best.ckpt" "pretrained").2.1 rfl rfl (by decide) (by decide)

/-- The normal case of `os.path.join`: non-empty first component without a
trailing separator, relative second component. -/
theorem osPathJoin_normal (a b : String) (ha : a ≠ "") (ha2 : endsWithSlash a = false)
    (hb : startsWithSlash b = false) : osPathJoin a b = a ++ "/" ++ b := by
  simp [osPathJoin, ha, ha2, hb]

/-- The arguments the `ModelCheckpoint` callback is constructed with in
`TrainHandler.__preparations` (src/train.py lines 82-91). -/
structure CheckpointPolicy where
  dirpath : String
  filename : String
  save_top_k : Int
  save_weights_only : Bool
  mode : String
  monitor : String
  verbose : Bool
  auto_insert_metric_name : Bool
deriving DecidableEq, Repr

/-- The non-sweep branch of `__preparations`: directory
`<checkpoint_dir>/run-<timestamp>-<run_name>/` and filename template
`best_epoch{epoch:02d}_<metric>{<metric>:.2f}` (braces written as \x7b
and \x7d escapes). -/
def runBranchPolicy (metric runName timestamp checkpoint_dir : String)
    (verbose : Bool) : CheckpointPolicy :=
  { dirpath := osPathJoin checkpoint_dir ("run-" ++ timestamp ++ "-" ++ runName)
    filename := "best_epoch\x7bepoch:02d\x7d_" ++ metric ++ "\x7b" ++ metric ++ ":.2f\x7d"
    save_top_k := 1
    save_weights_only := false
    mode := "max"
    monitor := metric
    verbose := verbose
    auto_insert_metric_name := false }

/-- Embedding of the checkpoint-policy part of `TrainHandler.__preparations`
(src/train.py lines 58-99): the Python `if sweep_id:` test is truthiness
(None and the empty string both select the non-sweep branch); the sweep
branch uses directory `<checkpoint_dir>/sweep-<sweep_id>/` and filename
template `<run_name>_epoch{epoch:02d}_<metric>{<metric>:.2f}`; both
branches keep one checkpoint, maximizing the monitored metric. -/
def preparations (sweepId : Option String)
    (metric runName timestamp checkpoint_dir : String) (verbose : Bool) :
    CheckpointPolicy :=
  match sweepId with
  | some s =>
    if s = "" then
      runBranchPolicy metric runName timestamp checkpoint_dir verbose
    else
      { dirpath := osPathJoin checkpoint_dir ("sweep-" ++ s)
        filename := runName ++ "_epoch\x7bepoch:02d\x7d_" ++ metric ++ "\x7b" ++ metric ++ ":.2f\x7d"
        save_top_k := 1
        save_weights_only := false
        mode := "max"
        monitor := metric
        verbose := verbose
        auto_insert_metric_name := false }
  | none => runBranchPolicy metric runName timestamp checkpoint_dir verbose

/-- C5: with a sweep id present (non-empty), the checkpoint directory is
`<checkpoint_root>/sweep-<sweep_id>` and the filename template embeds the
run name and the configured metric token; without one, the directory is
`<checkpoint_root>/run-<timestamp>-<run_name>` and the filename template
begins with `best_epoch`; in both branches the callback retains exactly
one checkpoint (`save_top_k = 1`), maximizing the monitored metric
(`mode = "max"`, `monitor = metric`).  The root is assumed non-empty
without a trailing separator so the join is the plain `<root>/<name>`. -/
theorem checkpoint_policy_derivation
    (sweepId : Option String) (metric runName timestamp root : String)
    (verbose : Bool) (hroot : root ≠ "") (hroot2 : endsWithSlash root = false) :
    (∀ s, sweepId = some s → s ≠ "" →
      (preparations sweepId metric runName timestamp root verbose).dirpath =
          root ++ "/" ++ ("sweep-" ++ s) ∧
        (∃ a b, (preparations sweepId metric runName timestamp root verbose).filename =
          runName ++ a ++ metric ++ b)) ∧
      (sweepId = none →
        (preparations sweepId metric runName timestamp root verbose).dirpath =
            root ++ "/" ++ ("run-" ++ timestamp ++ "-" ++ runName) ∧
          (∃ rest, (preparations sweepId metric runName timestamp root verbose).filename =
            "best_epoch" ++ rest)) ∧
      (preparations sweepId metric runName timestamp root verbose).save_top_k = 1 ∧
      (preparations sweepId metric runName timestamp root verbose).mode = "max" ∧
      (preparations sweepId metric runName timestamp root verbose).monitor = metric := by
  refine ⟨?_, ?_, ?_, ?_, ?_⟩
  · intro s hs hne
    subst hs
    constructor
    · simp only [preparations, if_neg hne]
      exact osPathJoin_normal root ("sweep-" ++ s) hroot hroot2 rfl
    · refine ⟨"_epoch\x7bepoch:02d\x7d_", "\x7b" ++ metric ++ ":.2f\x7d", ?_⟩
      simp only [preparations, if_neg hne]
      simp [String.append_assoc]
  · intro hs
    subst hs
    constructor
    · exact osPathJoin_normal root ("run-" ++ timestamp ++ "-" ++ runName) hroot hroot2 rfl
    · refine ⟨"\x7bepoch:02d\x7d_" ++ metric ++ "\x7b" ++ metric ++ ":.2f\x7d", ?_⟩
      show "best_epoch\x7bepoch:02d\x7d_" ++ metric ++ "\x7b" ++ metric ++ ":.2f\x7d" =
        "best_epoch" ++ ("\x7bepoch:02d\x7d_" ++ metric ++ "\x7b" ++ metric ++ ":.2f\x7d")
      simp [String.append_assoc]
      rfl
  · cases sweepId with
    | none => rfl
    | some s =>
      by_cases h : s = "" <;> simp [preparations, runBranchPolicy, h]
  · cases sweepId with
    | none => rfl
    | some s =>
      by_cases h : s = "" <;> simp [preparations, runBranchPolicy, h]
  · cases sweepId with
    | none => rfl
    | some s =>
      by_cases h : s = "" <;> simp [preparations, runBranchPolicy, h]

/-- Witness for `checkpoint_policy_derivation` at the concrete non-sweep
input from the spec: run_name "foo", timestamp "20240101_000000", root
"checkpoints". -/
theorem checkpoint_policy_derivation_witness :
    (preparations none "val_AUC_macro" "foo" "20240101_000000" "checkpoints"
          false).dirpath =
        "checkpoints" ++ "/" ++ ("run-" ++ "20240101_000000" ++ "-" ++ "foo") ∧
      ∃ rest, (preparations none "val_AUC_macro" "foo" "20240101_000000"
        "checkpoints" false).filename = "best_epoch" ++ rest :=
  (checkpoint_policy_derivation none "val_AUC_macro" "foo" "20240101_000000"
      "checkpoints" false (by decide) (by decide)).2.1 rfl
